import Mathlib

/-
  Verification development for bank_data_extract.py (PDFProcessor).
  The field-extraction phase of `extract_info_from_pdf`, the filename
  builder `generate_new_filename`, the report builder
  `generate_result_data` and the batch driver `process_all_pdfs` are
  embedded as executable Lean functions.  Regular-expression searches
  from the source are embedded as dedicated scanners with Python
  `re.search` semantics (leftmost match; alternation tried in written
  order at each position; greedy/lazy quantifier behaviour reproduced
  for the concrete patterns of the source).
-/

/-- ASCII part of the regex character class backslash-s and of Python
`str.strip`'s default whitespace set. -/
def pyIsSpace (c : Char) : Bool :=
  c = ' ' || c = '\t' || c = '\n' || c = '\x0d' || c = '\x0c' || c = '\x0b'

/-- The regex class backslash-d (ASCII digits). -/
def isDigitC (c : Char) : Bool :=
  '0' ≤ c && c ≤ '9'

/-- The regex class A-Z. -/
def isUpperC (c : Char) : Bool :=
  'A' ≤ c && c ≤ 'Z'

/-- The regex class A-Z0-9 used in the ISIN patterns. -/
def isUpperAlnum (c : Char) : Bool :=
  isUpperC c || isDigitC c

/-- Match a literal character sequence at the head of the input,
returning the remainder on success. -/
def litMatch : List Char → List Char → Option (List Char)
  | [], l => some l
  | _ :: _, [] => none
  | p :: ps, c :: cs => if c = p then litMatch ps cs else none

/-- `re.search` position scan: try the pattern at every position, left
to right, and return the first success. -/
def reScan (tryAt : List Char → Option α) : List Char → Option α
  | [] => none
  | c :: rest =>
    match tryAt (c :: rest) with
    | some v => some v
    | none => reScan tryAt rest

/-- One attempt of the pattern from source line 50,
`Frankfurt, backslash-s (dd).(mm).(yyyy)`, at the current position;
returns the three capture groups (day, month, year). -/
def tryDateAt (l : List Char) : Option (List Char × List Char × List Char) :=
  match litMatch "Frankfurt,".data l with
  | none => none
  | some r =>
    match r with
    | [] => none
    | c :: r1 =>
      if pyIsSpace c then
        match r1 with
        | d1 :: d2 :: '.' :: m1 :: m2 :: '.' :: y1 :: y2 :: y3 :: y4 :: _ =>
          if isDigitC d1 && isDigitC d2 && isDigitC m1 && isDigitC m2 &&
             isDigitC y1 && isDigitC y2 && isDigitC y3 && isDigitC y4 then
            some ([d1, d2], [m1, m2], [y1, y2, y3, y4])
          else none
        | _ => none
      else none

/-- The date search of source line 50. -/
def dateSearch : List Char → Option (List Char × List Char × List Char) :=
  reScan tryDateAt

/-- The parenthesised part of the first ISIN pattern (source line 55):
an opening paren, exactly 12 characters of the class A-Z0-9 (the named
group), a slash, one or more characters of A-Z0-9, a closing paren.
Returns the 12-character capture. -/
def matchParenIsin (l : List Char) : Option (List Char) :=
  match l with
  | '(' :: r =>
    let isin := r.take 12
    if isin.length = 12 && isin.all isUpperAlnum then
      match r.drop 12 with
      | '/' :: r2 =>
        let run := r2.takeWhile isUpperAlnum
        if run.isEmpty then none
        else
          match r2.drop run.length with
          | ')' :: _ => some isin
          | _ => none
      | _ => none
    else none
  | _ => none

/-- The lazy dot-star of source line 55 (no DOTALL, so it cannot cross
a line break): find the earliest position at or after the current one
where `matchParenIsin` succeeds, without passing a newline. -/
def scanParenIsin : List Char → Option (List Char)
  | [] => none
  | c :: rest =>
    match matchParenIsin (c :: rest) with
    | some v => some v
    | none => if c = '\n' then none else scanParenIsin rest

/-- After the salutation word of source line 55: at least one
whitespace character (greedy, which for this pattern is equivalent to
taking the maximal run), then the lazy scan for the parenthesised
identifier. -/
def afterKaufVerkauf (l : List Char) : Option (List Char) :=
  let ws := l.takeWhile pyIsSpace
  if ws.isEmpty then none else scanParenIsin (l.drop ws.length)

/-- One attempt of the first ISIN pattern of source line 55 at the
current position: the alternation Kauf-or-Verkauf in written order,
then `afterKaufVerkauf`. -/
def tryIsin1At (l : List Char) : Option (List Char) :=
  match litMatch "Kauf".data l with
  | some r => afterKaufVerkauf r
  | none =>
    match litMatch "Verkauf".data l with
    | some r => afterKaufVerkauf r
    | none => none

/-- The transaction-line ISIN search of source line 55. -/
def isinRule1 : List Char → Option (List Char) :=
  reScan tryIsin1At

/-- One attempt of the labeled ISIN pattern of source line 57,
`ISIN backslash-s* : backslash-s* ([A-Z]{2}[A-Z0-9]{10})`, at the
current position. -/
def tryIsin2At (l : List Char) : Option (List Char) :=
  match litMatch "ISIN".data l with
  | none => none
  | some r =>
    match r.drop (r.takeWhile pyIsSpace).length with
    | ':' :: r2 =>
      let r3 := r2.drop (r2.takeWhile pyIsSpace).length
      let cap := r3.take 12
      if cap.length = 12 && (cap.take 2).all isUpperC && (cap.drop 2).all isUpperAlnum then
        some cap
      else none
    | _ => none

/-- The labeled ISIN search of source line 57. -/
def isinRule2 : List Char → Option (List Char) :=
  reScan tryIsin2At

/-- One attempt of the depot-number pattern of source line 63,
`Ihre Depotnummer: backslash-s* (backslash-d+)`, at the current
position. -/
def tryDepotAt (l : List Char) : Option (List Char) :=
  match litMatch "Ihre Depotnummer:".data l with
  | none => none
  | some r =>
    let r1 := r.drop (r.takeWhile pyIsSpace).length
    let ds := r1.takeWhile isDigitC
    if ds.isEmpty then none else some ds

/-- The depot-number search of source line 63. -/
def depotSearch : List Char → Option (List Char) :=
  reScan tryDepotAt

/-- Python `str.strip()` on the ASCII whitespace set. -/
def pyStrip (l : List Char) : List Char :=
  ((l.dropWhile pyIsSpace).reverse.dropWhile pyIsSpace).reverse

/-- The normalization of source line 70:
`.replace(newline, space).strip()` applied to the second capture
group. -/
def normalizeInhaber (l : List Char) : List Char :=
  pyStrip (l.map (fun c => if c = '\n' then ' ' else c))

/-- The capture of source line 68 after the salutation: the greedy
whitespace-star takes the maximal run, and the lazy dot-star with the
trailing newline-or-end alternation stops at the first newline (or at
the end of the text), so the second group is everything from the end
of the whitespace run up to but excluding the first newline. -/
def inhaberCapture (l : List Char) : List Char :=
  (l.drop (l.takeWhile pyIsSpace).length).takeWhile (fun c => c ≠ '\n')

/-- One attempt of the account-holder pattern of source line 68 at the
current position: the alternation Herrn-or-Frau in written order; once
the salutation matches, the rest of the pattern always succeeds. -/
def tryInhaberAt (l : List Char) : Option (List Char) :=
  match litMatch "Herrn".data l with
  | some r => some (inhaberCapture r)
  | none =>
    match litMatch "Frau".data l with
    | some r => some (inhaberCapture r)
    | none => none

/-- The account-holder search of source line 68. -/
def inhaberSearch : List Char → Option (List Char) :=
  reScan tryInhaberAt

/-- The third document-type alternative of source line 73:
`Wertpapierabrechnung backslash-s+ (Kauf or Verkauf or
Vorabpauschale)`; the whole match is the capture. -/
def tryWertpapier (l : List Char) : Option (List Char) :=
  match litMatch "Wertpapierabrechnung".data l with
  | none => none
  | some r =>
    let ws := r.takeWhile pyIsSpace
    if ws.isEmpty then none
    else
      let r2 := r.drop ws.length
      match litMatch "Kauf".data r2 with
      | some _ => some ("Wertpapierabrechnung".data ++ ws ++ "Kauf".data)
      | none =>
        match litMatch "Verkauf".data r2 with
        | some _ => some ("Wertpapierabrechnung".data ++ ws ++ "Verkauf".data)
        | none =>
          match litMatch "Vorabpauschale".data r2 with
          | some _ => some ("Wertpapierabrechnung".data ++ ws ++ "Vorabpauschale".data)
          | none => none

/-- One attempt of the document-type alternation of source line 73 at
the current position, alternatives in the written order.  The last
literal reproduces the mojibake bytes of the source file (the source
is double-encoded there). -/
def tryDocAt (l : List Char) : Option (List Char) :=
  match litMatch "Sammelabrechnung".data l with
  | some _ => some "Sammelabrechnung".data
  | none =>
  match litMatch "Abrechnung".data l with
  | some _ => some "Abrechnung".data
  | none =>
  match tryWertpapier l with
  | some v => some v
  | none =>
  match litMatch "Storno".data l with
  | some _ => some "Storno".data
  | none =>
  match litMatch "Dividendenabrechnung".data l with
  | some _ => some "Dividendenabrechnung".data
  | none =>
  match litMatch "Zinsabrechnung".data l with
  | some _ => some "Zinsabrechnung".data
  | none =>
  match litMatch "Steuerbescheinigung".data l with
  | some _ => some "Steuerbescheinigung".data
  | none =>
  match litMatch "Kontoauszug".data l with
  | some _ => some "Kontoauszug".data
  | none =>
  match litMatch "Rechnung".data l with
  | some _ => some "Rechnung".data
  | none =>
  match litMatch "Gutschrift".data l with
  | some _ => some "Gutschrift".data
  | none =>
  match litMatch "Beleg".data l with
  | some _ => some "Beleg".data
  | none =>
  match litMatch "TransaktionsÃ¼bersicht".data l with
  | some _ => some "TransaktionsÃ¼bersicht".data
  | none => none

/-- The document-type search of source line 73. -/
def doctypeSearch : List Char → Option (List Char) :=
  reScan tryDocAt

/-- The constant EXTRACTED_DATA_TEMPLATE of source lines 28-34; a
Python dict is modelled as an insertion-ordered association list. -/
def EXTRACTED_DATA_TEMPLATE : List (String × String) :=
  [("Konto Inhaber", "Nicht gefunden"),
   ("Depotnummer", "Nicht gefunden"),
   ("ISIN", "Nicht gefunden"),
   ("Datum", "Nicht gefunden"),
   ("Dokumenttyp", "Nicht gefunden")]

/-- Python dict assignment `d[k] = v`: overwrite in place when the key
exists (keeping insertion order), append otherwise. -/
def dictSet : List (String × String) → String → String → List (String × String)
  | [], k, v => [(k, v)]
  | (k0, v0) :: rest, k, v =>
    if k0 = k then (k, v) :: rest else (k0, v0) :: dictSet rest k v

/-- Python dict read `d.get(k)`. -/
def pyGet : List (String × String) → String → Option String
  | [], _ => none
  | (k0, v0) :: rest, k => if k0 = k then some v0 else pyGet rest k

/-- Source lines 50-52: store the normalized date (year, month, day
concatenated) when the date pattern matches. -/
def applyDate (t : List Char) (d : List (String × String)) : List (String × String) :=
  match dateSearch t with
  | some (dd, mm, yy) => dictSet d "Datum" (String.mk (yy ++ mm ++ dd))
  | none => d

/-- Source lines 55-60: the transaction-line rule, then the labeled
rule only if the first found nothing; store the capture. -/
def applyIsin (t : List Char) (d : List (String × String)) : List (String × String) :=
  match (match isinRule1 t with
         | some v => some v
         | none => isinRule2 t) with
  | some v => dictSet d "ISIN" (String.mk v)
  | none => d

/-- Source lines 63-65: store the depot number when matched. -/
def applyDepot (t : List Char) (d : List (String × String)) : List (String × String) :=
  match depotSearch t with
  | some v => dictSet d "Depotnummer" (String.mk v)
  | none => d

/-- Source lines 68-70: store the normalized account holder when the
salutation pattern matches. -/
def applyInhaber (t : List Char) (d : List (String × String)) : List (String × String) :=
  match inhaberSearch t with
  | some v => dictSet d "Konto Inhaber" (String.mk (normalizeInhaber v))
  | none => d

/-- Source lines 73-75: store the document type when matched. -/
def applyDoctype (t : List Char) (d : List (String × String)) : List (String × String) :=
  match doctypeSearch t with
  | some v => dictSet d "Dokumenttyp" (String.mk v)
  | none => d

/-- The field-extraction phase of `extract_info_from_pdf` (source
lines 47-77): copy the template, then perform the five conditional
assignments in source order on the already-concatenated page text. -/
def extract_fields (text : String) : List (String × String) :=
  applyDoctype text.data
    (applyInhaber text.data
      (applyDepot text.data
        (applyIsin text.data
          (applyDate text.data EXTRACTED_DATA_TEMPLATE))))

/-- A record with the five template fields in template key order. -/
def mkRecord (inhaber depot isin datum dtyp : String) : List (String × String) :=
  [("Konto Inhaber", inhaber),
   ("Depotnummer", depot),
   ("ISIN", isin),
   ("Datum", datum),
   ("Dokumenttyp", dtyp)]

/-- Python `x or default` for an optional string: the default when the
value is missing or falsy (the empty string). -/
def pyOr (v : Option String) (dflt : String) : String :=
  match v with
  | none => dflt
  | some s => if s = "" then dflt else s

/-- One truncated component of source lines 114-116:
`(extracted_info.get(key) or 'Unbekannt')[:50]`. -/
def truncComponent (info : List (String × String)) (key : String) : String :=
  String.mk ((pyOr (pyGet info key) "Unbekannt").data.take 50)

/-- Source line 119: `.replace(" ", "_")` on the assembled name. -/
def pyReplaceSpace (s : String) : String :=
  String.mk (s.data.map (fun c => if c = ' ' then '_' else c))

/-- `generate_new_filename` of source lines 112-119.  The subscript
reads `extracted_info['Datum']` and `['Depotnummer']` raise KeyError
when the key is missing, modelled as `none`. -/
def generate_new_filename (info : List (String × String)) : Option String :=
  match pyGet info "Datum", pyGet info "Depotnummer" with
  | some datum, some depot =>
    some (pyReplaceSpace
      (datum ++ "_" ++ depot ++ "_" ++ truncComponent info "Dokumenttyp" ++ "_" ++
        truncComponent info "Konto Inhaber" ++ "_" ++ truncComponent info "ISIN" ++ ".pdf"))
  | _, _ => none

/-- The per-record lines of source line 133: one `key: value` line per
dict entry, in dict order. -/
def entryLines (entry : List (String × String)) : List String :=
  entry.map (fun kv => kv.1 ++ ": " ++ kv.2)

/-- One record block of source line 133: the joined lines, a blank
line, and the 50-dash separator line. -/
def entryBlock (entry : List (String × String)) : String :=
  String.intercalate "\n" (entryLines entry) ++ "\n\n" ++
    String.mk (List.replicate 50 '-') ++ "\n"

/-- `generate_result_data` of source lines 130-134: the count header
followed by one block per record, in record order. -/
def generate_result_data (lst : List (List (String × String))) : String :=
  "Anzahl Dokumente: " ++ toString lst.length ++ "\n\n" ++
    String.join (lst.map entryBlock)

/-- The observable effects of one `process_all_pdfs` run. -/
structure BatchOutcome where
  newFolderCreated : Bool
  records : List (List (String × String))
  copiedFiles : List String
  reportContent : Option String
  deriving Repr, DecidableEq

/-- The per-file loop of source lines 92-107.  `extractInfo` stands
for `extract_info_from_pdf` (which may return None), `copyOk` for
whether `shutil.copy` succeeds; the record is appended before the
filename is generated and before the copy is attempted, a falsy
(empty) dict is skipped like None, a copy failure is caught and only
logged, and a KeyError from `generate_new_filename` escapes the loop
(it is outside the try block). -/
def batchLoop (extractInfo : String → Option (List (String × String)))
    (copyOk : String → Bool) :
    List String → List (List (String × String)) → List String →
      List (List (String × String)) × List String × Option String
  | [], recs, copied => (recs, copied, none)
  | f :: fs, recs, copied =>
    match extractInfo f with
    | none => batchLoop extractInfo copyOk fs recs copied
    | some info =>
      if info = [] then batchLoop extractInfo copyOk fs recs copied
      else
        match generate_new_filename info with
        | none => (recs ++ [info], copied, some "KeyError")
        | some fname =>
          if copyOk f then batchLoop extractInfo copyOk fs (recs ++ [info]) (copied ++ [fname])
          else batchLoop extractInfo copyOk fs (recs ++ [info]) copied

/-- `process_all_pdfs` of source lines 83-109, over the already-listed
`.pdf` names.  The NEW folder is created only when the file list is
non-empty; `output_txt_path` is assigned only in that same branch, so
on an empty list the final `save_extracted_info` call raises
UnboundLocalError; report-write failures are caught inside
`save_extracted_info`, so the report content is produced whenever that
call is reached. -/
def process_all_pdfs (pdf_files : List String)
    (extractInfo : String → Option (List (String × String)))
    (copyOk : String → Bool) : BatchOutcome × Option String :=
  match batchLoop extractInfo copyOk pdf_files [] [] with
  | (recs, copied, some e) =>
    ({ newFolderCreated := !pdf_files.isEmpty, records := recs,
       copiedFiles := copied, reportContent := none }, some e)
  | (recs, copied, none) =>
    if pdf_files.isEmpty then
      ({ newFolderCreated := false, records := recs,
         copiedFiles := copied, reportContent := none },
       some "UnboundLocalError: local variable output_txt_path referenced before assignment")
    else
      ({ newFolderCreated := true, records := recs,
         copiedFiles := copied, reportContent := some (generate_result_data recs) }, none)

/-- A concrete record used to exercise the batch driver. -/
def rexA : List (String × String) :=
  mkRecord "Anna Muster" "111" "DE0000000001" "20240101" "Abrechnung"

/-- A concrete record used to exercise the batch driver. -/
def rexB : List (String × String) :=
  mkRecord "Bernd" "222" "DE0000000002" "20240202" "Storno"

/-- A concrete record used to exercise the batch driver. -/
def rexC : List (String × String) :=
  mkRecord "Cora" "333" "DE0000000003" "20240303" "Kontoauszug"

/-- A concrete extraction oracle: three files extract successfully. -/
def exInfo : String → Option (List (String × String)) :=
  fun f =>
    if f = "a.pdf" then some rexA
    else if f = "b.pdf" then some rexB
    else if f = "c.pdf" then some rexC
    else none

/-- A concrete copy oracle: the copy of the second file fails. -/
def exCopyOk : String → Bool :=
  fun f => !(f == "b.pdf")

/-- A successful position scan found the pattern at a position before
which every earlier position fails (leftmost-match semantics). -/
theorem reScan_some_found {α : Type} (tryAt : List Char → Option α) (l : List Char) (v : α)
    (h : reScan tryAt l = some v) :
    ∃ i, tryAt (List.drop i l) = some v ∧ ∀ j, j < i → tryAt (List.drop j l) = none := by
  induction l with
  | nil => simp [reScan] at h
  | cons c rest ih =>
    simp only [reScan] at h
    cases htry : tryAt (c :: rest) with
    | some w =>
      rw [htry] at h
      simp only [Option.some.injEq] at h
      subst h
      exact ⟨0, htry, fun j hj => absurd hj (Nat.not_lt_zero j)⟩
    | none =>
      rw [htry] at h
      simp only at h
      obtain ⟨i, hi, hmin⟩ := ih h
      refine ⟨i + 1, by simpa using hi, ?_⟩
      intro j hj
      cases j with
      | zero => simpa using htry
      | succ j => simpa using hmin j (by omega)

/-- If the pattern matches at some position, the scan succeeds. -/
theorem reScan_isSome_of_found {α : Type} (tryAt : List Char → Option α)
    (h0 : tryAt [] = none) (l : List Char) (i : Nat) (v : α)
    (h : tryAt (List.drop i l) = some v) : ∃ w, reScan tryAt l = some w := by
  induction l generalizing i with
  | nil => rw [List.drop_nil, h0] at h; cases h
  | cons c rest ih =>
    simp only [reScan]
    cases htry : tryAt (c :: rest) with
    | some w => exact ⟨w, by simp⟩
    | none =>
      simp only
      cases i with
      | zero => rw [List.drop_zero, htry] at h; cases h
      | succ i =>
        rw [List.drop_succ_cons] at h
        exact ih i h

/-- The date pattern captures two day digits, two month digits, four
year digits. -/
theorem tryDateAt_shape {l dd mm yy : List Char}
    (h : tryDateAt l = some (dd, mm, yy)) :
    dd.length = 2 ∧ mm.length = 2 ∧ yy.length = 4 := by
  unfold tryDateAt at h
  split at h
  · cases h
  · split at h
    · cases h
    · split at h
      · split at h
        · split at h
          · simp only [Option.some.injEq, Prod.mk.injEq] at h
            obtain ⟨h1, h2, h3⟩ := h
            subst h1; subst h2; subst h3
            simp
          · cases h
        · cases h
      · cases h


/-- The parenthesised identifier capture has exactly 12 characters. -/
theorem matchParenIsin_len {l v : List Char} (h : matchParenIsin l = some v) :
    v.length = 12 := by
  unfold matchParenIsin at h
  split at h
  · simp only [] at h
    split at h
    · rename_i hcond
      split at h
      · split at h
        · cases h
        · split at h
          · simp only [Option.some.injEq] at h
            subst h
            simpa using (Bool.and_elim_left hcond)
          · cases h
      · cases h
    · cases h
  · cases h

/-- The lazy scan for the parenthesised identifier yields 12-character
captures. -/
theorem scanParenIsin_len {l v : List Char} (h : scanParenIsin l = some v) :
    v.length = 12 := by
  induction l with
  | nil => simp [scanParenIsin] at h
  | cons c rest ih =>
    simp only [scanParenIsin] at h
    cases hm : matchParenIsin (c :: rest) with
    | some w =>
      rw [hm] at h
      simp only [Option.some.injEq] at h
      subst h
      exact matchParenIsin_len hm
    | none =>
      rw [hm] at h
      simp only at h
      split at h
      · cases h
      · exact ih h

/-- The whitespace-then-scan step after the salutation yields
12-character captures. -/
theorem afterKaufVerkauf_len {l v : List Char} (h : afterKaufVerkauf l = some v) :
    v.length = 12 := by
  unfold afterKaufVerkauf at h
  simp only [] at h
  split at h
  · cases h
  · exact scanParenIsin_len h

/-- A transaction-line match captures exactly 12 characters. -/
theorem tryIsin1At_len {l v : List Char} (h : tryIsin1At l = some v) :
    v.length = 12 := by
  unfold tryIsin1At at h
  split at h
  · exact afterKaufVerkauf_len h
  · split at h
    · exact afterKaufVerkauf_len h
    · cases h

/-- A labeled-ISIN match captures exactly 12 characters. -/
theorem tryIsin2At_len {l v : List Char} (h : tryIsin2At l = some v) :
    v.length = 12 := by
  unfold tryIsin2At at h
  split at h
  · cases h
  · split at h
    · simp only [] at h
      split at h
      · rename_i hcond
        simp only [Option.some.injEq] at h
        subst h
        have h1 := Bool.and_elim_left (Bool.and_elim_left hcond)
        simpa using h1
      · cases h
    · cases h

/-- A depot-number match captures a non-empty digit run. -/
theorem tryDepotAt_ne_nil {l v : List Char} (h : tryDepotAt l = some v) :
    v ≠ [] := by
  unfold tryDepotAt at h
  split at h
  · cases h
  · simp only [] at h
    split at h
    · cases h
    · rename_i hrun
      simp only [Option.some.injEq] at h
      subst h
      simpa [List.isEmpty_iff] using hrun

/-- A match of the composite Wertpapierabrechnung alternative is
non-empty. -/
theorem tryWertpapier_ne_nil {l v : List Char} (h : tryWertpapier l = some v) :
    v ≠ [] := by
  unfold tryWertpapier at h
  split at h
  · cases h
  · simp only [] at h
    split at h
    · cases h
    · split at h
      · simp only [Option.some.injEq] at h
        subst h
        simp
      · split at h
        · simp only [Option.some.injEq] at h
          subst h
          simp
        · split at h
          · simp only [Option.some.injEq] at h
            subst h
            simp
          · cases h

/-- A document-type match is non-empty. -/
theorem tryDocAt_ne_nil {l v : List Char} (h : tryDocAt l = some v) :
    v ≠ [] := by
  unfold tryDocAt at h
  split at h
  · simp only [Option.some.injEq] at h; subst h; simp
  · split at h
    · simp only [Option.some.injEq] at h; subst h; simp
    · split at h
      · rename_i w hw
        simp only [Option.some.injEq] at h
        subst h
        exact tryWertpapier_ne_nil hw
      · split at h
        · simp only [Option.some.injEq] at h; subst h; simp
        · split at h
          · simp only [Option.some.injEq] at h; subst h; simp
          · split at h
            · simp only [Option.some.injEq] at h; subst h; simp
            · split at h
              · simp only [Option.some.injEq] at h; subst h; simp
              · split at h
                · simp only [Option.some.injEq] at h; subst h; simp
                · split at h
                  · simp only [Option.some.injEq] at h; subst h; simp
                  · split at h
                    · simp only [Option.some.injEq] at h; subst h; simp
                    · split at h
                      · simp only [Option.some.injEq] at h; subst h; simp
                      · split at h
                        · simp only [Option.some.injEq] at h; subst h; simp
                        · cases h

/-- Assigning the Datum key of a five-field record. -/
theorem dictSet_mk_datum (a b c d e v : String) :
    dictSet (mkRecord a b c d e) "Datum" v = mkRecord a b c v e := rfl

/-- Assigning the ISIN key of a five-field record. -/
theorem dictSet_mk_isin (a b c d e v : String) :
    dictSet (mkRecord a b c d e) "ISIN" v = mkRecord a b v d e := rfl

/-- Assigning the Depotnummer key of a five-field record. -/
theorem dictSet_mk_depot (a b c d e v : String) :
    dictSet (mkRecord a b c d e) "Depotnummer" v = mkRecord a v c d e := rfl

/-- Assigning the Konto Inhaber key of a five-field record. -/
theorem dictSet_mk_inhaber (a b c d e v : String) :
    dictSet (mkRecord a b c d e) "Konto Inhaber" v = mkRecord v b c d e := rfl

/-- Assigning the Dokumenttyp key of a five-field record. -/
theorem dictSet_mk_doctype (a b c d e v : String) :
    dictSet (mkRecord a b c d e) "Dokumenttyp" v = mkRecord a b c d v := rfl

/-- Reading the Konto Inhaber key of a five-field record. -/
theorem pyGet_mk_inhaber (a b c d e : String) :
    pyGet (mkRecord a b c d e) "Konto Inhaber" = some a := rfl

/-- Reading the Depotnummer key of a five-field record. -/
theorem pyGet_mk_depot (a b c d e : String) :
    pyGet (mkRecord a b c d e) "Depotnummer" = some b := rfl

/-- Reading the ISIN key of a five-field record. -/
theorem pyGet_mk_isin (a b c d e : String) :
    pyGet (mkRecord a b c d e) "ISIN" = some c := rfl

/-- Reading the Datum key of a five-field record. -/
theorem pyGet_mk_datum (a b c d e : String) :
    pyGet (mkRecord a b c d e) "Datum" = some d := rfl

/-- Reading the Dokumenttyp key of a five-field record. -/
theorem pyGet_mk_doctype (a b c d e : String) :
    pyGet (mkRecord a b c d e) "Dokumenttyp" = some e := rfl

/-- The date-assignment step on a five-field record. -/
theorem applyDate_mk (t : List Char) (a b c d e : String) :
    applyDate t (mkRecord a b c d e) =
      mkRecord a b c
        (match dateSearch t with
         | some (dd, mm, yy) => String.mk (yy ++ mm ++ dd)
         | none => d) e := by
  unfold applyDate
  cases h : dateSearch t with
  | none => rfl
  | some p =>
    obtain ⟨dd, mm, yy⟩ := p
    rfl

/-- The ISIN-assignment step on a five-field record. -/
theorem applyIsin_mk (t : List Char) (a b c d e : String) :
    applyIsin t (mkRecord a b c d e) =
      mkRecord a b
        (match (match isinRule1 t with
                | some v => some v
                | none => isinRule2 t) with
         | some v => String.mk v
         | none => c) d e := by
  unfold applyIsin
  cases h : (match isinRule1 t with
             | some v => some v
             | none => isinRule2 t) with
  | none => rfl
  | some v => rfl

/-- The depot-assignment step on a five-field record. -/
theorem applyDepot_mk (t : List Char) (a b c d e : String) :
    applyDepot t (mkRecord a b c d e) =
      mkRecord a
        (match depotSearch t with
         | some v => String.mk v
         | none => b) c d e := by
  unfold applyDepot
  cases h : depotSearch t with
  | none => rfl
  | some v => rfl

/-- The account-holder assignment step on a five-field record. -/
theorem applyInhaber_mk (t : List Char) (a b c d e : String) :
    applyInhaber t (mkRecord a b c d e) =
      mkRecord
        (match inhaberSearch t with
         | some v => String.mk (normalizeInhaber v)
         | none => a) b c d e := by
  unfold applyInhaber
  cases h : inhaberSearch t with
  | none => rfl
  | some v => rfl

/-- The document-type assignment step on a five-field record. -/
theorem applyDoctype_mk (t : List Char) (a b c d e : String) :
    applyDoctype t (mkRecord a b c d e) =
      mkRecord a b c d
        (match doctypeSearch t with
         | some v => String.mk v
         | none => e) := by
  unfold applyDoctype
  cases h : doctypeSearch t with
  | none => rfl
  | some v => rfl

/-- The extraction phase always yields a five-field record in template
key order, each field holding either the sentinel or the normalized
capture of its search. -/
theorem extract_fields_eq (text : String) :
    extract_fields text =
      mkRecord
        (match inhaberSearch text.data with
         | some cap => String.mk (normalizeInhaber cap)
         | none => "Nicht gefunden")
        (match depotSearch text.data with
         | some v => String.mk v
         | none => "Nicht gefunden")
        (match (match isinRule1 text.data with
                | some v => some v
                | none => isinRule2 text.data) with
         | some v => String.mk v
         | none => "Nicht gefunden")
        (match dateSearch text.data with
         | some (dd, mm, yy) => String.mk (yy ++ mm ++ dd)
         | none => "Nicht gefunden")
        (match doctypeSearch text.data with
         | some v => String.mk v
         | none => "Nicht gefunden") := by
  have h0 : EXTRACTED_DATA_TEMPLATE =
      mkRecord "Nicht gefunden" "Nicht gefunden" "Nicht gefunden"
        "Nicht gefunden" "Nicht gefunden" := rfl
  unfold extract_fields
  rw [h0, applyDate_mk, applyIsin_mk, applyDepot_mk, applyInhaber_mk, applyDoctype_mk]

/-- A string built from a non-empty character list is not the empty
string. -/
theorem stringMk_ne_empty {l : List Char} (h : l ≠ []) : String.mk l ≠ "" := by
  intro hcon
  apply h
  have h2 := congrArg String.data hcon
  simpa using h2

/-- C1 (amended): for every input text, the extraction phase returns a
record with exactly the five fields in template order; depotNumber,
isin, date and documentType are each either the sentinel or a
non-empty matched value; accountHolder is either the sentinel or the
normalized capture of the salutation rule, which can be empty. -/
theorem claimC1_amended (text : String) :
    (extract_fields text).map Prod.fst =
        ["Konto Inhaber", "Depotnummer", "ISIN", "Datum", "Dokumenttyp"] ∧
    (∃ v, pyGet (extract_fields text) "Datum" = some v ∧
       (v = "Nicht gefunden" ∨ v ≠ "")) ∧
    (∃ v, pyGet (extract_fields text) "Depotnummer" = some v ∧
       (v = "Nicht gefunden" ∨ v ≠ "")) ∧
    (∃ v, pyGet (extract_fields text) "ISIN" = some v ∧
       (v = "Nicht gefunden" ∨ v ≠ "")) ∧
    (∃ v, pyGet (extract_fields text) "Dokumenttyp" = some v ∧
       (v = "Nicht gefunden" ∨ v ≠ "")) ∧
    (∃ v, pyGet (extract_fields text) "Konto Inhaber" = some v ∧
       (v = "Nicht gefunden" ∨ ∃ cap, inhaberSearch text.data = some cap ∧
          v = String.mk (normalizeInhaber cap))) := by
  have he := extract_fields_eq text
  refine ⟨by rw [he]; rfl, ?_, ?_, ?_, ?_, ?_⟩
  · rw [he, pyGet_mk_datum]
    cases hd : dateSearch text.data with
    | none => exact ⟨_, rfl, Or.inl rfl⟩
    | some p =>
      obtain ⟨dd, mm, yy⟩ := p
      refine ⟨_, rfl, Or.inr ?_⟩
      obtain ⟨i, hi, -⟩ := reScan_some_found tryDateAt text.data _ hd
      obtain ⟨-, -, hy⟩ := tryDateAt_shape hi
      apply stringMk_ne_empty
      intro hcon
      rw [List.append_eq_nil, List.append_eq_nil] at hcon
      rw [hcon.1.1] at hy
      cases hy
  · rw [he, pyGet_mk_depot]
    cases hd : depotSearch text.data with
    | none => exact ⟨_, rfl, Or.inl rfl⟩
    | some v =>
      refine ⟨_, rfl, Or.inr ?_⟩
      obtain ⟨i, hi, -⟩ := reScan_some_found tryDepotAt text.data _ hd
      exact stringMk_ne_empty (tryDepotAt_ne_nil hi)
  · rw [he, pyGet_mk_isin]
    cases h1 : isinRule1 text.data with
    | some v =>
      refine ⟨_, rfl, Or.inr ?_⟩
      obtain ⟨i, hi, -⟩ := reScan_some_found tryIsin1At text.data _ h1
      apply stringMk_ne_empty
      intro hcon
      have := tryIsin1At_len hi
      rw [hcon] at this
      cases this
    | none =>
      cases h2 : isinRule2 text.data with
      | none => exact ⟨_, rfl, Or.inl rfl⟩
      | some v =>
        refine ⟨_, rfl, Or.inr ?_⟩
        obtain ⟨i, hi, -⟩ := reScan_some_found tryIsin2At text.data _ h2
        apply stringMk_ne_empty
        intro hcon
        have := tryIsin2At_len hi
        rw [hcon] at this
        cases this
  · rw [he, pyGet_mk_doctype]
    cases hd : doctypeSearch text.data with
    | none => exact ⟨_, rfl, Or.inl rfl⟩
    | some v =>
      refine ⟨_, rfl, Or.inr ?_⟩
      obtain ⟨i, hi, -⟩ := reScan_some_found tryDocAt text.data _ hd
      exact stringMk_ne_empty (tryDocAt_ne_nil hi)
  · rw [he, pyGet_mk_inhaber]
    cases hd : inhaberSearch text.data with
    | none => exact ⟨_, rfl, Or.inl rfl⟩
    | some cap => exact ⟨_, rfl, Or.inr ⟨cap, rfl, rfl⟩⟩

/-- C1 (counterexample): on the input "Frau" the account-holder rule
matches with an empty capture, so the stored value is the empty
string — neither the sentinel nor a non-empty matched value. -/
theorem claimC1_counterexample :
    pyGet (extract_fields "Frau") "Konto Inhaber" = some "" ∧
      ("" : String) ≠ "Nicht gefunden" := by
  refine ⟨by rfl, by decide⟩

/-- C2 (code evaluation at the failing input): on
"Frau Maria\nMustermann\n" the lazy capture of the account-holder
pattern stops at the first line break, so the code stores "Maria",
not the collapsed "Maria Mustermann" the claim states. -/
theorem claimC2_code_eval :
    pyGet (extract_fields "Frau Maria\nMustermann\n") "Konto Inhaber" = some "Maria" ∧
      pyGet (extract_fields "Frau Maria\nMustermann\n") "Konto Inhaber" ≠
        some "Maria Mustermann" := by
  refine ⟨by rfl, by decide⟩

/-- C3 (counterexample): in "Storno Sammelabrechnung" the entry
"Sammelabrechnung" is first in the priority order and occurs in the
text (it matches at position 7), yet the code stores "Storno", the
entry whose occurrence is earliest in the text: `re.search` with an
alternation is leftmost-match, not priority-first. -/
theorem claimC3_counterexample :
    pyGet (extract_fields "Storno Sammelabrechnung") "Dokumenttyp" = some "Storno" ∧
      tryDocAt (("Storno Sammelabrechnung" : String).data.drop 7) =
        some "Sammelabrechnung".data ∧
      ("Storno" : String) ≠ "Sammelabrechnung" := by
  refine ⟨by rfl, by rfl, by decide⟩

/-- C3 (amended): when several document-type vocabulary entries occur,
extract sets documentType (case-preserving) to the entry whose match
position is earliest in the text; the fixed priority order of the
alternation decides only among entries matching at the same start
position (that tie-break is the written order of `tryDocAt`). -/
theorem claimC3_amended (text : String) (v : List Char)
    (h : doctypeSearch text.data = some v) :
    pyGet (extract_fields text) "Dokumenttyp" = some (String.mk v) ∧
      ∃ i, tryDocAt (text.data.drop i) = some v ∧
        ∀ j, j < i → tryDocAt (text.data.drop j) = none := by
  constructor
  · rw [extract_fields_eq, pyGet_mk_doctype, h]
  · exact reScan_some_found tryDocAt text.data v h

/-- Witness for C3 (amended) at the counterexample input. -/
theorem claimC3_witness :
    pyGet (extract_fields "Storno Sammelabrechnung") "Dokumenttyp" =
        some (String.mk "Storno".data) ∧
      ∃ i, tryDocAt (("Storno Sammelabrechnung" : String).data.drop i) =
          some "Storno".data ∧
        ∀ j, j < i →
          tryDocAt (("Storno Sammelabrechnung" : String).data.drop j) = none :=
  claimC3_amended "Storno Sammelabrechnung" "Storno".data (by rfl)

/-- C4 (code evaluation at the failing input): on an empty file list
the batch creates no NEW folder and writes no report, but it does not
complete silently: `output_txt_path` is assigned only when the list is
non-empty, so the final `save_extracted_info` call raises
UnboundLocalError. -/
theorem claimC4_code_eval (extractInfo : String → Option (List (String × String)))
    (copyOk : String → Bool) :
    process_all_pdfs [] extractInfo copyOk =
      ({ newFolderCreated := false, records := [], copiedFiles := [],
         reportContent := none },
       some "UnboundLocalError: local variable output_txt_path referenced before assignment") := rfl

/-- C5: whenever the buy/sell transaction-line identifier rule
matches, its capture is stored as the ISIN, with no condition on the
labeled "ISIN:" rule — the second rule is not attempted once the
first succeeds. -/
theorem claimC5_isin_precedence (text : String) (v : List Char)
    (h : isinRule1 text.data = some v) :
    pyGet (extract_fields text) "ISIN" = some (String.mk v) := by
  rw [extract_fields_eq, pyGet_mk_isin, h]

/-- Witness for C5: a text in which both identifier rules match with
different values; the transaction-line value is chosen. -/
theorem claimC5_witness :
    (pyGet (extract_fields "Kauf  x (AB1234567890/XY)\nISIN: DE0000000001") "ISIN" =
        some (String.mk "AB1234567890".data)) ∧
      isinRule2 ("Kauf  x (AB1234567890/XY)\nISIN: DE0000000001" : String).data =
        some "DE0000000001".data ∧
      ("AB1234567890".data ≠ "DE0000000001".data) :=
  ⟨claimC5_isin_precedence "Kauf  x (AB1234567890/XY)\nISIN: DE0000000001"
      "AB1234567890".data (by rfl),
   by rfl, by decide⟩

/-- C6: whenever the city-prefixed date pattern matches somewhere in
the text, the date field is set to the leftmost match's year, month
and day concatenated with no separators (two, two and four digits);
in particular an input containing "Frankfurt, 05.03.2024" yields
"20240305". -/
theorem claimC6_date_normalization :
    (∀ (text : String) (i : Nat) (dd mm yy : List Char),
        tryDateAt (text.data.drop i) = some (dd, mm, yy) →
        ∃ d2 m2 y2, dateSearch text.data = some (d2, m2, y2) ∧
          d2.length = 2 ∧ m2.length = 2 ∧ y2.length = 4 ∧
          pyGet (extract_fields text) "Datum" = some (String.mk (y2 ++ m2 ++ d2))) ∧
      pyGet (extract_fields "es gilt Frankfurt, 05.03.2024 hiermit") "Datum" =
        some "20240305" := by
  constructor
  · intro text i dd mm yy h
    have h0 : tryDateAt [] = none := rfl
    obtain ⟨w, hw⟩ := reScan_isSome_of_found tryDateAt h0 text.data i _ h
    obtain ⟨d2, m2, y2⟩ := w
    have hw2 : dateSearch text.data = some (d2, m2, y2) := hw
    obtain ⟨j, hj, -⟩ := reScan_some_found tryDateAt text.data _ hw
    obtain ⟨hd2, hm2, hy2⟩ := tryDateAt_shape hj
    refine ⟨d2, m2, y2, hw2, hd2, hm2, hy2, ?_⟩
    rw [extract_fields_eq, pyGet_mk_datum, hw2]
  · rfl

/-- Witness for C6 at the concrete containing input. -/
theorem claimC6_witness :
    ∃ d2 m2 y2,
      dateSearch ("es gilt Frankfurt, 05.03.2024 hiermit" : String).data =
          some (d2, m2, y2) ∧
        d2.length = 2 ∧ m2.length = 2 ∧ y2.length = 4 ∧
        pyGet (extract_fields "es gilt Frankfurt, 05.03.2024 hiermit") "Datum" =
          some (String.mk (y2 ++ m2 ++ d2)) :=
  claimC6_date_normalization.1 "es gilt Frankfurt, 05.03.2024 hiermit" 8
    ['0', '5'] ['0', '3'] ['2', '0', '2', '4'] (by rfl)

/-- Unfolding of the Python truthiness default on a present value. -/
theorem pyOr_some (s d : String) : pyOr (some s) d = if s = "" then d else s := rfl

/-- Unfolding of the Python truthiness default on a missing value. -/
theorem pyOr_none (d : String) : pyOr none d = d := rfl

/-- After the space-to-underscore replacement no space remains. -/
theorem space_not_mem_pyReplaceSpace (s : String) : ' ' ∉ (pyReplaceSpace s).data := by
  unfold pyReplaceSpace
  intro hmem
  have hmem2 : ' ' ∈ s.data.map (fun c => if c = ' ' then '_' else c) := hmem
  rw [List.mem_map] at hmem2
  obtain ⟨c, -, hc⟩ := hmem2
  by_cases h : c = ' ' <;> simp [h] at hc

/-- Truncating a field before building the filename changes nothing:
the builder itself truncates to the same 50 characters (the empty
string is sent to the default either way). -/
theorem pyOr_take_absorb (s : String) :
    String.mk ((pyOr (some (String.mk (s.data.take 50))) "Unbekannt").data.take 50) =
      String.mk ((pyOr (some s) "Unbekannt").data.take 50) := by
  rw [pyOr_some, pyOr_some]
  by_cases hs : s = ""
  · subst hs
    rfl
  · have hne : s.data ≠ [] := fun hcon => hs (by
      have h2 := congrArg String.mk hcon
      simpa using h2)
    have h1 : String.mk (s.data.take 50) ≠ "" := by
      apply stringMk_ne_empty
      intro hcon
      have hlen := congrArg List.length hcon
      rw [List.length_take] at hlen
      simp at hlen
      exact hne (List.eq_nil_of_length_eq_zero hlen)
    rw [if_neg h1, if_neg hs]
    simp [List.take_take]

/-- C7: each of the three textual components documentType,
accountHolder and isin is truncated to exactly 50 characters before
assembly (the component used has length min 50 of the original, and
pre-truncating the record does not change the filename), and the
assembled filename contains no space character. -/
theorem claimC7_truncation (inhaber depot isinv datum dtyp : String) :
    generate_new_filename (mkRecord inhaber depot isinv datum dtyp) =
      generate_new_filename
        (mkRecord (String.mk (inhaber.data.take 50)) depot
          (String.mk (isinv.data.take 50)) datum (String.mk (dtyp.data.take 50))) ∧
    (truncComponent (mkRecord inhaber depot isinv datum dtyp) "Konto Inhaber").data.length
        = min 50 (pyOr (some inhaber) "Unbekannt").data.length ∧
    (truncComponent (mkRecord inhaber depot isinv datum dtyp) "Dokumenttyp").data.length
        = min 50 (pyOr (some dtyp) "Unbekannt").data.length ∧
    (truncComponent (mkRecord inhaber depot isinv datum dtyp) "ISIN").data.length
        = min 50 (pyOr (some isinv) "Unbekannt").data.length ∧
    ∃ s, generate_new_filename (mkRecord inhaber depot isinv datum dtyp) = some s ∧
      ' ' ∉ s.data := by
  have hI : truncComponent
      (mkRecord (String.mk (inhaber.data.take 50)) depot
        (String.mk (isinv.data.take 50)) datum (String.mk (dtyp.data.take 50)))
      "Konto Inhaber" =
      truncComponent (mkRecord inhaber depot isinv datum dtyp) "Konto Inhaber" := by
    unfold truncComponent
    rw [pyGet_mk_inhaber, pyGet_mk_inhaber]
    exact pyOr_take_absorb inhaber
  have hS : truncComponent
      (mkRecord (String.mk (inhaber.data.take 50)) depot
        (String.mk (isinv.data.take 50)) datum (String.mk (dtyp.data.take 50)))
      "ISIN" =
      truncComponent (mkRecord inhaber depot isinv datum dtyp) "ISIN" := by
    unfold truncComponent
    rw [pyGet_mk_isin, pyGet_mk_isin]
    exact pyOr_take_absorb isinv
  have hD : truncComponent
      (mkRecord (String.mk (inhaber.data.take 50)) depot
        (String.mk (isinv.data.take 50)) datum (String.mk (dtyp.data.take 50)))
      "Dokumenttyp" =
      truncComponent (mkRecord inhaber depot isinv datum dtyp) "Dokumenttyp" := by
    unfold truncComponent
    rw [pyGet_mk_doctype, pyGet_mk_doctype]
    exact pyOr_take_absorb dtyp
  refine ⟨?_, ?_, ?_, ?_, ?_⟩
  · simp only [generate_new_filename, pyGet_mk_datum, pyGet_mk_depot]
    rw [hI, hS, hD]
  · unfold truncComponent
    rw [pyGet_mk_inhaber, List.length_take]
  · unfold truncComponent
    rw [pyGet_mk_doctype, List.length_take]
  · unfold truncComponent
    rw [pyGet_mk_isin, List.length_take]
  · exact ⟨_, rfl, space_not_mem_pyReplaceSpace _⟩

/-- C8: in a batch of three documents that all extract successfully,
where the copy of the second fails, all three records are retained,
the report receives all three entries, and exactly the two other
files are copied. -/
theorem claimC8_partial_failure (f1 f2 f3 : String)
    (extractInfo : String → Option (List (String × String)))
    (copyOk : String → Bool) (r1 r2 r3 : List (String × String))
    (n1 n2 n3 : String)
    (h1 : extractInfo f1 = some r1) (h2 : extractInfo f2 = some r2)
    (h3 : extractInfo f3 = some r3)
    (hne1 : r1 ≠ []) (hne2 : r2 ≠ []) (hne3 : r3 ≠ [])
    (hg1 : generate_new_filename r1 = some n1)
    (hg2 : generate_new_filename r2 = some n2)
    (hg3 : generate_new_filename r3 = some n3)
    (hc1 : copyOk f1 = true) (hc2 : copyOk f2 = false) (hc3 : copyOk f3 = true) :
    process_all_pdfs [f1, f2, f3] extractInfo copyOk =
      ({ newFolderCreated := true, records := [r1, r2, r3],
         copiedFiles := [n1, n3],
         reportContent := some (generate_result_data [r1, r2, r3]) }, none) := by
  unfold process_all_pdfs
  have hb : batchLoop extractInfo copyOk [f1, f2, f3] [] [] =
      ([r1, r2, r3], [n1, n3], none) := by
    simp [batchLoop, h1, h2, h3, hne1, hne2, hne3, hg1, hg2, hg3, hc1, hc2, hc3]
  rw [hb]
  simp

/-- A key listed among a dict's keys has a value. -/
theorem pyGet_isSome_of_mem_keys (info : List (String × String)) (k : String)
    (h : k ∈ info.map Prod.fst) : ∃ v, pyGet info k = some v := by
  induction info with
  | nil => simp at h
  | cons p rest ih =>
    obtain ⟨k0, v0⟩ := p
    simp only [List.map_cons, List.mem_cons] at h
    by_cases hk : k0 = k
    · exact ⟨v0, by simp [pyGet, hk]⟩
    · obtain ⟨v, hv⟩ := ih (by
        rcases h with h | h
        · exact absurd h.symm hk
        · exact h)
      exact ⟨v, by simp [pyGet, hk, hv]⟩

/-- C9: on any record carrying the five template fields the filename
builder is total (it returns a string, never a KeyError) and pure
(two invocations on the same record give the identical string). -/
theorem claimC9_total_deterministic (info : List (String × String))
    (h : info.map Prod.fst =
      ["Konto Inhaber", "Depotnummer", "ISIN", "Datum", "Dokumenttyp"]) :
    (∃ s, generate_new_filename info = some s) ∧
      generate_new_filename info = generate_new_filename info := by
  obtain ⟨d, hd⟩ := pyGet_isSome_of_mem_keys info "Datum" (by rw [h]; simp)
  obtain ⟨p, hp⟩ := pyGet_isSome_of_mem_keys info "Depotnummer" (by rw [h]; simp)
  have hq : generate_new_filename info =
      some (pyReplaceSpace
        (d ++ "_" ++ p ++ "_" ++ truncComponent info "Dokumenttyp" ++ "_" ++
          truncComponent info "Konto Inhaber" ++ "_" ++
          truncComponent info "ISIN" ++ ".pdf")) := by
    unfold generate_new_filename
    rw [hd, hp]
  exact ⟨⟨_, hq⟩, rfl⟩

/-- Witness for C9 at the template record itself. -/
theorem claimC9_witness :
    (∃ s, generate_new_filename EXTRACTED_DATA_TEMPLATE = some s) ∧
      generate_new_filename EXTRACTED_DATA_TEMPLATE =
        generate_new_filename EXTRACTED_DATA_TEMPLATE :=
  claimC9_total_deterministic EXTRACTED_DATA_TEMPLATE (by rfl)

/-- C10: for a non-empty batch, every record rendered into the report
is a five-field record in template key order, so each report entry
renders its lines as accountHolder, depotNumber, isin, date,
documentType — identical line order across all records. -/
theorem claimC10_report_order (texts : List String) (h : texts ≠ []) :
    ∀ r ∈ texts.map extract_fields,
      ∃ v1 v2 v3 v4 v5, r = mkRecord v1 v2 v3 v4 v5 ∧
        entryLines r = ["Konto Inhaber: " ++ v1, "Depotnummer: " ++ v2,
          "ISIN: " ++ v3, "Datum: " ++ v4, "Dokumenttyp: " ++ v5] := by
  intro r hr
  rw [List.mem_map] at hr
  obtain ⟨t, -, rfl⟩ := hr
  rw [extract_fields_eq t]
  exact ⟨_, _, _, _, _, rfl, rfl⟩

/-- Witness for C10 on a singleton batch. -/
theorem claimC10_witness :
    ∃ v1 v2 v3 v4 v5,
      extract_fields "Storno Sammelabrechnung" = mkRecord v1 v2 v3 v4 v5 ∧
        entryLines (extract_fields "Storno Sammelabrechnung") =
          ["Konto Inhaber: " ++ v1, "Depotnummer: " ++ v2,
            "ISIN: " ++ v3, "Datum: " ++ v4, "Dokumenttyp: " ++ v5] :=
  claimC10_report_order ["Storno Sammelabrechnung"] (by decide)
    (extract_fields "Storno Sammelabrechnung") (by simp)

/-- Witness for C8 on the concrete three-file batch. -/
theorem claimC8_witness :
    process_all_pdfs ["a.pdf", "b.pdf", "c.pdf"] exInfo exCopyOk =
      ({ newFolderCreated := true, records := [rexA, rexB, rexC],
         copiedFiles := ["20240101_111_Abrechnung_Anna_Muster_DE0000000001.pdf",
           "20240303_333_Kontoauszug_Cora_DE0000000003.pdf"],
         reportContent := some (generate_result_data [rexA, rexB, rexC]) }, none) :=
  claimC8_partial_failure "a.pdf" "b.pdf" "c.pdf" exInfo exCopyOk rexA rexB rexC
    "20240101_111_Abrechnung_Anna_Muster_DE0000000001.pdf"
    "20240202_222_Storno_Bernd_DE0000000002.pdf"
    "20240303_333_Kontoauszug_Cora_DE0000000003.pdf"
    (by rfl) (by rfl) (by rfl) (by decide) (by decide) (by decide)
    (by rfl) (by rfl) (by rfl) (by decide) (by decide) (by decide)
